import Mathlib

/-!
# SimonGame_rpi: the `gpio_driver` kernel module

A shallow embedding of `src/gpio_driver/gpio_driver.c`.

* Bytes (`char`) are natural numbers below 256; `char` is unsigned, as in the ARM ABI the
  driver is built for.
* A buffer is the list of bytes that starts at the buffer's address.  Both driver buffers are
  allocated with `BUF_LEN = 80` bytes; the C string functions used by the driver do no bounds
  checking, so a list longer than `BUF_LEN` records bytes that were stored past the end of the
  allocation.
* The register window is a map from byte offset to the 32-bit value last written there
  (what `ioread32` returns), together with the ordered log of all accesses.
* `unsigned int` arithmetic is taken modulo `2 ^ 32`, `unsigned long` (jiffies) modulo
  `2 ^ ULONG_BITS`.
* `copy_to_user` / `copy_from_user` return the number of bytes that could not be copied; that
  number is supplied by the environment (`uncopied`) and is capped by the length of the
  transfer, so a transfer of zero bytes never fails.
-/

namespace GpioDriver

/-! ## Constants -/

def GPFSEL0_OFFSET : Nat := 0x00
def GPFSEL1_OFFSET : Nat := 0x04
def GPFSEL2_OFFSET : Nat := 0x08
def GPFSEL3_OFFSET : Nat := 0x0C
def GPFSEL4_OFFSET : Nat := 0x10
def GPFSEL5_OFFSET : Nat := 0x14
def GPSET0_OFFSET : Nat := 0x1C
def GPSET1_OFFSET : Nat := 0x20
def GPCLR0_OFFSET : Nat := 0x28
def GPCLR1_OFFSET : Nat := 0x2C
def GPLEV0_OFFSET : Nat := 0x34
def GPLEV1_OFFSET : Nat := 0x38
def GPPUD_OFFSET : Nat := 0x94
def GPPUDCLK0_OFFSET : Nat := 0x98
def GPPUDCLK1_OFFSET : Nat := 0x9C

/-- Pull-up/down codes of `enum PUD`. -/
inductive PUD where
  | PULL_NONE
  | PULL_DOWN
  | PULL_UP
  deriving DecidableEq, Repr

/-- Numeric value of a `PUD` enumerator. -/
def PUD.code : PUD → Nat
  | .PULL_NONE => 0
  | .PULL_DOWN => 1
  | .PULL_UP => 2

/-- Pin directions of `enum DIRECTION`. -/
inductive DIRECTION where
  | GPIO_DIRECTION_IN
  | GPIO_DIRECTION_OUT
  deriving DecidableEq, Repr

/-- Numeric value of a `DIRECTION` enumerator. -/
def DIRECTION.code : DIRECTION → Nat
  | .GPIO_DIRECTION_IN => 0
  | .GPIO_DIRECTION_OUT => 1

def GPIO_06 : Nat := 6
def GPIO_12 : Nat := 12
def GPIO_13 : Nat := 13
def GPIO_16 : Nat := 16
def GPIO_19 : Nat := 19
def GPIO_20 : Nat := 20
def GPIO_21 : Nat := 21
def GPIO_26 : Nat := 26

def BUF_LEN : Nat := 80

/-- Width of `unsigned long` on the 32-bit ARM target. -/
def ULONG_BITS : Nat := 32

def EFAULT : Int := 14
def ENOMEM : Int := 12
def EINTR : Int := 4

/-! ## Register access -/

/-- One access to the hardware, in program order. -/
inductive HwEvent where
  | read (offset : Nat)
  | write (offset : Nat) (value : Nat)
  | delay (ms : Nat)
  deriving DecidableEq, Repr

/-- The mapped register window: current contents and access log. -/
structure Gpio where
  regs : Nat → Nat
  ops : List HwEvent

/-- Embedding of `iowrite32(value, virt_gpio_base + offset)`. -/
def iowrite32 (value offset : Nat) (hw : Gpio) : Gpio :=
  { regs := Function.update hw.regs offset (value % 2 ^ 32),
    ops := hw.ops ++ [HwEvent.write offset (value % 2 ^ 32)] }

/-- Embedding of `ioread32(virt_gpio_base + offset)`: the value and the logged access. -/
def ioread32 (offset : Nat) (hw : Gpio) : Nat × Gpio :=
  (hw.regs offset, { hw with ops := hw.ops ++ [HwEvent.read offset] })

/-- Embedding of `mdelay(ms)`: only the fact that a delay happened is recorded. -/
def mdelay (ms : Nat) (hw : Gpio) : Gpio :=
  { hw with ops := hw.ops ++ [HwEvent.delay ms] }

/-- Bitwise complement of an `unsigned int`. -/
def not32 (x : Nat) : Nat := (2 ^ 32 - 1) - x % 2 ^ 32

/-! ## Pin configuration -/

/-- Embedding of `GetGPFSELReg`. -/
def GetGPFSELReg (pin : Nat) : Nat :=
  if pin < 10 then GPFSEL0_OFFSET
  else if 10 ≤ pin ∧ pin < 20 then GPFSEL1_OFFSET
  else if 20 ≤ pin ∧ pin < 30 then GPFSEL2_OFFSET
  else if 30 ≤ pin ∧ pin < 40 then GPFSEL3_OFFSET
  else if 40 ≤ pin ∧ pin < 50 then GPFSEL4_OFFSET
  else GPFSEL5_OFFSET

/-- Embedding of `GetGPIOPinOffset` (the result is a `char`). -/
def GetGPIOPinOffset (pin : Nat) : Nat :=
  if pin < 10 then pin
  else if 10 ≤ pin ∧ pin < 20 then pin - 10
  else if 20 ≤ pin ∧ pin < 30 then pin - 20
  else if 30 ≤ pin ∧ pin < 40 then pin - 30
  else if 40 ≤ pin ∧ pin < 50 then pin - 40
  else pin - 50

/-- Embedding of `SetInternalPullUpDown`. -/
def SetInternalPullUpDown (pin : Nat) (pull : PUD) (hw : Gpio) : Gpio :=
  let gppud_offset := GPPUD_OFFSET
  let gppudclk_offset := if pin < 32 then GPPUDCLK0_OFFSET else GPPUDCLK1_OFFSET
  let pin := if pin < 32 then pin else pin - 32
  let hw := iowrite32 pull.code gppud_offset hw
  let (tmp, hw) := ioread32 gppudclk_offset hw
  let mask := (0x1 <<< pin) % 2 ^ 32
  let tmp := tmp ||| mask
  let hw := iowrite32 tmp gppudclk_offset hw
  let hw := iowrite32 PUD.PULL_NONE.code gppud_offset hw
  let (tmp, hw) := ioread32 gppudclk_offset hw
  let mask := (0x1 <<< pin) % 2 ^ 32
  let tmp := tmp &&& not32 mask
  iowrite32 tmp gppudclk_offset hw

/-- Embedding of `SetGpioPinDirection`. -/
def SetGpioPinDirection (pin : Nat) (direction : DIRECTION) (hw : Gpio) : Gpio :=
  let GPFSELReg_offset := GetGPFSELReg pin
  let pin := GetGPIOPinOffset pin
  let (tmp, hw) := ioread32 GPFSELReg_offset hw
  let tmp :=
    if direction.code ≠ 0 then
      let mask := (0x1 <<< (pin * 3)) % 2 ^ 32
      tmp ||| mask
    else
      let mask := not32 (0x1 <<< (pin * 3))
      tmp &&& mask
  iowrite32 tmp GPFSELReg_offset hw

/-- Embedding of `SetGpioPin`. -/
def SetGpioPin (pin : Nat) (hw : Gpio) : Gpio :=
  let GPSETreg_offset := if pin < 32 then GPSET0_OFFSET else GPSET1_OFFSET
  let pin := if pin < 32 then pin else pin - 32
  let tmp := 0x1 <<< pin
  iowrite32 tmp GPSETreg_offset hw

/-- Embedding of `ClearGpioPin`. -/
def ClearGpioPin (pin : Nat) (hw : Gpio) : Gpio :=
  let GPCLRreg_offset := if pin < 32 then GPCLR0_OFFSET else GPCLR1_OFFSET
  let pin := if pin < 32 then pin else pin - 32
  let tmp := 0x1 <<< pin
  iowrite32 tmp GPCLRreg_offset hw

/-- Embedding of `GetGpioPinValue`. -/
def GetGpioPinValue (pin : Nat) (hw : Gpio) : Nat × Gpio :=
  let GPLEVreg_offset := if pin < 32 then GPLEV0_OFFSET else GPLEV1_OFFSET
  let pin := if pin < 32 then pin else pin - 32
  let (tmp, hw) := ioread32 GPLEVreg_offset hw
  let mask := (0x1 <<< pin) % 2 ^ 32
  let tmp := tmp &&& mask
  ((tmp >>> pin) % 256, hw)

/-! ## C strings over byte buffers -/

/-- The C string stored at the start of a buffer: the bytes before the first NUL. -/
def cstr (b : List Nat) : List Nat := b.takeWhile (fun c => c != 0)

/-- Embedding of `strlen`. -/
def strlen (b : List Nat) : Nat := (cstr b).length

/-- Embedding of `memset(b, c, n)`. -/
def memset (b : List Nat) (c n : Nat) : List Nat := List.replicate n c ++ b.drop n

/-- Embedding of `strcpy(dst, src)`: the string and its terminator overwrite the start of
`dst`. -/
def strcpy (dst src : List Nat) : List Nat :=
  cstr src ++ 0 :: dst.drop (strlen src + 1)

/-- Embedding of `strcat(dst, src)`: the string and its terminator are stored from the
terminator of `dst` on, with no regard for the size of `dst`. -/
def strcat (dst src : List Nat) : List Nat :=
  cstr dst ++ (cstr src ++ 0 :: dst.drop (strlen dst + strlen src + 1))

/-- Whether `needle` occurs as a contiguous block of `hay`. -/
def occurs (needle : List Nat) : List Nat → Bool
  | [] => needle.isEmpty
  | h :: t => needle.isPrefixOf (h :: t) || occurs needle t

/-- Embedding of `strstr(hay, needle) != NULL`. -/
def strstr (hay needle : List Nat) : Bool := occurs (cstr needle) (cstr hay)

/-- Value returned by `copy_to_user` / `copy_from_user` for a transfer of `n` bytes. -/
def not_copied (uncopied n : Nat) : Nat := min uncopied n

/-- Embedding of `copy_from_user(dst, src, n)`: the bytes that could not be copied are
zero-filled. -/
def copy_from_user (dst src : List Nat) (n uncopied : Nat) : Nat × List Nat :=
  let r := not_copied uncopied n
  (r, (src.take (n - r) ++ List.replicate r 0) ++ dst.drop n)

/-- Embedding of `copy_to_user(buf, src, n)`: the return value and the bytes stored to the
caller. -/
def copy_to_user (src : List Nat) (n uncopied : Nat) : Nat × List Nat :=
  let r := not_copied uncopied n
  (r, src.take (n - r))

/-- The string literal `"LED"`. -/
def LED : List Nat := [76, 69, 68, 0]

/-! ## Driver state and file operations -/

/-- Global variables of the driver after a successful `gpio_driver_init`. -/
structure Driver where
  gpio_driver_buffer : List Nat
  gpio_sequnce_buffer : List Nat
  old_jiffie : Nat
  hw : Gpio

/-- Embedding of `gpio_driver_write`; `buf` holds the `len` bytes offered by the caller. -/
def gpio_driver_write (buf : List Nat) (uncopied : Nat) (d : Driver) : Int × Driver :=
  let len := buf.length
  let b := memset d.gpio_driver_buffer 0 BUF_LEN
  let (r, b) := copy_from_user b buf len uncopied
  if r ≠ 0 then
    (-EFAULT, { d with gpio_driver_buffer := b })
  else if strstr b LED && decide (5 ≤ strlen b) then
    let hw :=
      if b.getD 3 0 = 49 then
        if b.getD 5 0 = 49 then SetGpioPin GPIO_06 d.hw else ClearGpioPin GPIO_06 d.hw
      else if b.getD 3 0 = 50 then
        if b.getD 5 0 = 49 then SetGpioPin GPIO_13 d.hw else ClearGpioPin GPIO_13 d.hw
      else if b.getD 3 0 = 51 then
        if b.getD 5 0 = 49 then SetGpioPin GPIO_19 d.hw else ClearGpioPin GPIO_19 d.hw
      else if b.getD 3 0 = 52 then
        if b.getD 5 0 = 49 then SetGpioPin GPIO_26 d.hw else ClearGpioPin GPIO_26 d.hw
      else d.hw
    ((len : Int), { d with gpio_driver_buffer := memset b 0 BUF_LEN, hw := hw })
  else
    (0, { d with gpio_driver_buffer := b })

/-- What a `gpio_driver_read` call leaves behind: its return value, the bytes stored to the
caller, the file position and the driver state. -/
structure ReadResult where
  ret : Int
  out : List Nat
  f_pos : Int
  d : Driver

/-- Embedding of `gpio_driver_read`; `f_pos` is the value of `*f_pos` on entry. -/
def gpio_driver_read (_len : Nat) (f_pos : Int) (uncopied : Nat) (d : Driver) : ReadResult :=
  let b := memset d.gpio_driver_buffer 0 BUF_LEN
  let b := strcpy b d.gpio_sequnce_buffer
  let q := memset d.gpio_sequnce_buffer 0 BUF_LEN
  let d := { d with gpio_driver_buffer := b, gpio_sequnce_buffer := q }
  if f_pos = 0 then
    let data_size := strlen b
    let (r, out) := copy_to_user b data_size uncopied
    if r ≠ 0 then
      { ret := -EFAULT, out := out, f_pos := f_pos, d := d }
    else
      { ret := (data_size : Int), out := out, f_pos := f_pos + (data_size : Int), d := d }
  else
    { ret := 0, out := [], f_pos := f_pos, d := d }

/-- Embedding of `gpio_irq_handler_falling`; `jiffies` is the tick counter at the time of the
edge and `dev_id` the identifier registered with the interrupt line. -/
def gpio_irq_handler_falling (jiffies dev_id : Nat) (d : Driver) : Driver :=
  let id := dev_id
  let diff := (jiffies + 2 ^ ULONG_BITS - d.old_jiffie) % 2 ^ ULONG_BITS
  if diff < 20 then
    d
  else
    let q :=
      if id = GPIO_06 then strcat d.gpio_sequnce_buffer [49, 0]
      else if id = GPIO_13 then strcat d.gpio_sequnce_buffer [50, 0]
      else if id = GPIO_19 then strcat d.gpio_sequnce_buffer [51, 0]
      else if id = GPIO_26 then strcat d.gpio_sequnce_buffer [52, 0]
      else strcat d.gpio_sequnce_buffer [48, 0]
    let hw := SetGpioPin (id % 256) d.hw
    let hw := mdelay 100 hw
    let hw := ClearGpioPin (id % 256) hw
    { d with old_jiffie := jiffies, gpio_sequnce_buffer := q, hw := hw }

/-- Symbol recorded by the handler for an identifier. -/
def symbol_of (dev_id : Nat) : Nat :=
  if dev_id = GPIO_06 then 49
  else if dev_id = GPIO_13 then 50
  else if dev_id = GPIO_19 then 51
  else if dev_id = GPIO_26 then 52
  else 48

/-- Tick difference as the handler computes it, in `unsigned long` arithmetic. -/
def tick_diff (now old : Nat) : Nat := (now + 2 ^ ULONG_BITS - old) % 2 ^ ULONG_BITS

/-- An entry into the driver: an edge delivered to the handler or a `read` call. -/
inductive Call where
  | edge (jiffies dev_id : Nat)
  | read (len : Nat) (f_pos : Int) (uncopied : Nat)

/-- The driver state after one entry. -/
def step (d : Driver) : Call → Driver
  | .edge jiffies dev_id => gpio_irq_handler_falling jiffies dev_id d
  | .read len f_pos uncopied => (gpio_driver_read len f_pos uncopied d).d

/-- The driver state after a sequence of entries, each run to completion. -/
def run (d : Driver) (cs : List Call) : Driver := cs.foldl step d

/-- Edges that are all accepted: each arrives at least 20 ticks after the tick `old` of the
previously accepted one. -/
def spaced (old : Nat) : List (Nat × Nat) → Bool
  | [] => true
  | e :: es => decide (20 ≤ tick_diff e.1 old) && spaced e.1 es

/-- The handler run on a list of edges `(jiffies, dev_id)`. -/
def handle_edges (d : Driver) (es : List (Nat × Nat)) : Driver :=
  es.foldl (fun d e => gpio_irq_handler_falling e.1 e.2 d) d

/-! ## Module initialisation -/

/-- Kernel resources that `gpio_driver_init` acquires. -/
inductive Resource where
  | chrdev (major : Int)
  | driver_buffer
  | sequnce_buffer
  | register_window
  | irq (line : Nat) (dev_id : Nat)
  deriving DecidableEq, Repr

/-- A successful acquisition, or a call of the matching release function. -/
inductive KEvent where
  | acquire (r : Resource)
  | release (r : Resource)
  deriving DecidableEq, Repr

/-- What the kernel answers to the calls made by `gpio_driver_init`. -/
structure InitEnv where
  /-- Return value of `register_chrdev`. -/
  register_chrdev : Int
  /-- Fresh memory returned by the first `kmalloc`, or `none` for `NULL`. -/
  kmalloc_driver : Option (List Nat)
  /-- Fresh memory returned by the second `kmalloc`, or `none` for `NULL`. -/
  kmalloc_sequnce : Option (List Nat)
  /-- Register window returned by the mapping call, or `none` for `NULL`. -/
  ioremap_window : Option Gpio
  gpio_to_irq : Nat → Nat
  /-- Return value of `request_irq` for a line and identifier. -/
  request_irq : Nat → Nat → Int

/-- Global variables of the module. -/
structure Globals where
  GPIO_12_irq_Number : Nat
  GPIO_16_irq_Number : Nat
  GPIO_20_irq_Number : Nat
  GPIO_21_irq_Number : Nat
  old_jiffie : Nat
  gpio_driver_major : Int
  gpio_driver_buffer : Option (List Nat)
  gpio_sequnce_buffer : Option (List Nat)
  virt_gpio_base : Option Gpio

/-- The globals of a freshly loaded module: all zero. -/
def globals0 : Globals :=
  { GPIO_12_irq_Number := 0, GPIO_16_irq_Number := 0, GPIO_20_irq_Number := 0,
    GPIO_21_irq_Number := 0, old_jiffie := 0, gpio_driver_major := 0,
    gpio_driver_buffer := none, gpio_sequnce_buffer := none, virt_gpio_base := none }

/-- Outcome of `gpio_driver_init`: return value, globals, acquisitions and releases in
program order. -/
structure InitResult where
  result : Int
  g : Globals
  log : List KEvent

/-- Code from label `free_gpio_21` to the `return`. -/
def free_gpio_21 (g : Globals) (log : List KEvent) : List KEvent :=
  log ++ [KEvent.release (Resource.irq g.GPIO_12_irq_Number GPIO_26)]

/-- Code from label `free_gpio_20` on. -/
def free_gpio_20 (g : Globals) (log : List KEvent) : List KEvent :=
  free_gpio_21 g (log ++ [KEvent.release (Resource.irq g.GPIO_20_irq_Number GPIO_19)])

/-- Code from label `free_gpio_16` on. -/
def free_gpio_16 (g : Globals) (log : List KEvent) : List KEvent :=
  free_gpio_20 g (log ++ [KEvent.release (Resource.irq g.GPIO_16_irq_Number GPIO_13)])

/-- Code from label `free_gpio_12` on. -/
def free_gpio_12 (g : Globals) (log : List KEvent) : List KEvent :=
  free_gpio_16 g (log ++ [KEvent.release (Resource.irq g.GPIO_12_irq_Number GPIO_06)])

/-- Code from label `fail_no_mem_s` on. -/
def fail_no_mem_s (g : Globals) (log : List KEvent) : List KEvent :=
  free_gpio_12 g
    (if g.gpio_sequnce_buffer.isSome then log ++ [KEvent.release Resource.sequnce_buffer]
     else log)

/-- Code from label `fail_no_mem_d` on. -/
def fail_no_mem_d (g : Globals) (log : List KEvent) : List KEvent :=
  fail_no_mem_s g
    (if g.gpio_driver_buffer.isSome then log ++ [KEvent.release Resource.driver_buffer]
     else log)

/-- Code from label `fail_no_virt_mem` on. -/
def fail_no_virt_mem (g : Globals) (log : List KEvent) : List KEvent :=
  fail_no_mem_d g (log ++ [KEvent.release (Resource.chrdev g.gpio_driver_major)])

/-- Pin set-up done by `gpio_driver_init` once the register window is mapped. -/
def init_pins (hw : Gpio) : Gpio :=
  let hw := SetGpioPinDirection GPIO_06 DIRECTION.GPIO_DIRECTION_OUT hw
  let hw := SetGpioPinDirection GPIO_13 DIRECTION.GPIO_DIRECTION_OUT hw
  let hw := SetGpioPinDirection GPIO_19 DIRECTION.GPIO_DIRECTION_OUT hw
  let hw := SetGpioPinDirection GPIO_26 DIRECTION.GPIO_DIRECTION_OUT hw
  let hw := SetInternalPullUpDown GPIO_12 PUD.PULL_UP hw
  let hw := SetInternalPullUpDown GPIO_16 PUD.PULL_UP hw
  let hw := SetInternalPullUpDown GPIO_20 PUD.PULL_UP hw
  let hw := SetInternalPullUpDown GPIO_21 PUD.PULL_UP hw
  let hw := SetGpioPinDirection GPIO_12 DIRECTION.GPIO_DIRECTION_IN hw
  let hw := SetGpioPinDirection GPIO_16 DIRECTION.GPIO_DIRECTION_IN hw
  let hw := SetGpioPinDirection GPIO_20 DIRECTION.GPIO_DIRECTION_IN hw
  SetGpioPinDirection GPIO_21 DIRECTION.GPIO_DIRECTION_IN hw

/-- Embedding of `gpio_driver_init`, started on the globals `g`. -/
def gpio_driver_init (env : InitEnv) (g : Globals) : InitResult :=
  let result := env.register_chrdev
  if result < 0 then
    { result := result, g := g, log := [] }
  else
    let g := { g with gpio_driver_major := result }
    let log := [KEvent.acquire (Resource.chrdev result)]
    let g := { g with gpio_driver_buffer := env.kmalloc_driver }
    match g.gpio_driver_buffer with
    | none => { result := -ENOMEM, g := g, log := fail_no_mem_d g log }
    | some b =>
      let log := log ++ [KEvent.acquire Resource.driver_buffer]
      let b := memset b 0 BUF_LEN
      let g := { g with gpio_driver_buffer := some b }
      let g := { g with gpio_sequnce_buffer := env.kmalloc_sequnce }
      match g.gpio_sequnce_buffer with
      | none => { result := -ENOMEM, g := g, log := fail_no_mem_s g log }
      | some _ =>
        let log := log ++ [KEvent.acquire Resource.sequnce_buffer]
        let b := memset b 0 BUF_LEN
        let g := { g with gpio_driver_buffer := some b }
        let g := { g with virt_gpio_base := env.ioremap_window }
        match g.virt_gpio_base with
        | none => { result := -ENOMEM, g := g, log := fail_no_virt_mem g log }
        | some hw =>
          let log := log ++ [KEvent.acquire Resource.register_window]
          let g := { g with virt_gpio_base := some (init_pins hw) }
          let g := { g with GPIO_12_irq_Number := env.gpio_to_irq GPIO_12 }
          if env.request_irq g.GPIO_12_irq_Number GPIO_06 ≠ 0 then
            { result := -EINTR, g := g, log := free_gpio_12 g log }
          else
            let log := log ++ [KEvent.acquire (Resource.irq g.GPIO_12_irq_Number GPIO_06)]
            let g := { g with GPIO_16_irq_Number := env.gpio_to_irq GPIO_16 }
            if env.request_irq g.GPIO_16_irq_Number GPIO_13 ≠ 0 then
              { result := -EINTR, g := g, log := free_gpio_16 g log }
            else
              let log := log ++ [KEvent.acquire (Resource.irq g.GPIO_16_irq_Number GPIO_13)]
              let g := { g with GPIO_20_irq_Number := env.gpio_to_irq GPIO_20 }
              if env.request_irq g.GPIO_20_irq_Number GPIO_19 ≠ 0 then
                { result := -EINTR, g := g, log := free_gpio_20 g log }
              else
                let log := log ++ [KEvent.acquire (Resource.irq g.GPIO_20_irq_Number GPIO_19)]
                let g := { g with GPIO_21_irq_Number := env.gpio_to_irq GPIO_21 }
                if env.request_irq g.GPIO_21_irq_Number GPIO_26 ≠ 0 then
                  { result := -EINTR, g := g, log := free_gpio_21 g log }
                else
                  let log := log ++
                    [KEvent.acquire (Resource.irq g.GPIO_21_irq_Number GPIO_26)]
                  { result := 0, g := g, log := log }

/-- Resources acquired, in order of acquisition. -/
def acquired : List KEvent → List Resource
  | [] => []
  | KEvent.acquire r :: es => r :: acquired es
  | KEvent.release _ :: es => acquired es

/-- Resources handed to a release function, in order of release. -/
def released : List KEvent → List Resource
  | [] => []
  | KEvent.acquire _ :: es => released es
  | KEvent.release r :: es => r :: released es

/-- Ordered rollback: what was released is exactly what was acquired, each once, in reverse
order of acquisition. -/
def rollback_exact (log : List KEvent) : Prop :=
  released log = (acquired log).reverse

instance (log : List KEvent) : Decidable (rollback_exact log) := by
  unfold rollback_exact; infer_instance

/-- The driver state that the file operations and the handler work on once
`gpio_driver_init` has returned `0`. -/
def Globals.driver (g : Globals) : Option Driver :=
  match g.gpio_driver_buffer, g.gpio_sequnce_buffer, g.virt_gpio_base with
  | some b, some q, some hw =>
    some { gpio_driver_buffer := b, gpio_sequnce_buffer := q, old_jiffie := g.old_jiffie, hw := hw }
  | _, _, _ => none

/-- A payload that `gpio_driver_write` can take without leaving its `BUF_LEN`-byte buffer:
it fits, and a payload filling the whole buffer carries its own terminator. -/
def fits_buffer (buf : List Nat) : Prop :=
  buf.length ≤ BUF_LEN ∧ (buf.length = BUF_LEN → 0 ∈ buf)

instance (buf : List Nat) : Decidable (fits_buffer buf) := by
  unfold fits_buffer; infer_instance

/-- A register window with every register reading zero and an empty access log. -/
def hw0 : Gpio := { regs := fun _ => 0, ops := [] }

/-- A driver state with zeroed buffers. -/
def driver0 : Driver :=
  { gpio_driver_buffer := List.replicate BUF_LEN 0,
    gpio_sequnce_buffer := List.replicate BUF_LEN 0,
    old_jiffie := 0,
    hw := hw0 }

/-- Output pin wired to lamp `n` (`LED1` .. `LED4`), as dispatched by `gpio_driver_write`. -/
def led_pin (n : Nat) : Nat :=
  if n = 1 then GPIO_06 else if n = 2 then GPIO_13 else if n = 3 then GPIO_19 else GPIO_26

/-- The payload `"LEDn s"` followed by `rest`: digit `n` at index 3, level byte `s` at
index 5. -/
def led_command (n s : Nat) (rest : List Nat) : List Nat :=
  76 :: 69 :: 68 :: (48 + n) :: 32 :: s :: rest

/-- A driver state with the single symbol `'1'` pending. -/
def driver_pending : Driver :=
  { gpio_driver_buffer := List.replicate BUF_LEN 0,
    gpio_sequnce_buffer := 49 :: List.replicate 79 0,
    old_jiffie := 0,
    hw := hw0 }

/-- Eighty edges on the first input, 20 ticks apart, with no `read` in between. -/
def eighty_edges : List Call :=
  (List.range 80).map (fun i => Call.edge (20 * (i + 1)) GPIO_06)

/-- Edges on inputs 1, 3, 2, 4 (identifiers 6, 19, 13, 26), 100 ticks apart. -/
def edges_1324 : List (Nat × Nat) :=
  [(100, GPIO_06), (200, GPIO_19), (300, GPIO_13), (400, GPIO_26)]

/-- A kernel in which device registration succeeds with major number 240 and the first
`kmalloc` (step 2 of the init sequence) returns `NULL`. -/
def env_no_driver_buffer : InitEnv :=
  { register_chrdev := 240,
    kmalloc_driver := none,
    kmalloc_sequnce := some (List.replicate BUF_LEN 0),
    ioremap_window := some hw0,
    gpio_to_irq := fun pin => 160 + pin,
    request_irq := fun _ _ => 0 }

/-- The register window `hw2` differs from `hw1` at most in the 3-bit function-select field
of pin `p`: bits `3 * (p mod 10) .. 3 * (p mod 10) + 2` of the register at offset
`4 * (p div 10)`. -/
def same_outside_field (p : Nat) (hw1 hw2 : Gpio) : Prop :=
  (∀ i, (i < 3 * (p % 10) ∨ 3 * (p % 10) + 3 ≤ i) →
      (hw2.regs (4 * (p / 10))).testBit i = (hw1.regs (4 * (p / 10))).testBit i) ∧
  (∀ off, off ≠ 4 * (p / 10) → hw2.regs off = hw1.regs off)

/-- The 3-bit function-select field of pin `p` in the register value `v`. -/
def fsel_field (p v : Nat) : Nat := (v >>> (3 * (p % 10))) % 8

/-- A register window in which every function-select bit is set. -/
def hw_ones : Gpio := { regs := fun _ => 0xFFFFFFFF, ops := [] }

/-- A register window in which pin 6 is in alternate function 0 (field `100`). -/
def hw_alt0 : Gpio := { regs := fun off => if off = 0 then 4 <<< 18 else 0, ops := [] }

/-- A kernel in which every call of `gpio_driver_init` succeeds and the memory returned by
the second `kmalloc` starts with the bytes `'7'`, NUL. -/
def env_stale_memory : InitEnv :=
  { register_chrdev := 240,
    kmalloc_driver := some (List.replicate BUF_LEN 0xAA),
    kmalloc_sequnce := some (55 :: List.replicate 79 0),
    ioremap_window := some hw0,
    gpio_to_irq := fun pin => 160 + pin,
    request_irq := fun _ _ => 0 }

/-- The bytes of `"garbage"`. -/
def garbage : List Nat := [103, 97, 114, 98, 97, 103, 101]

set_option maxRecDepth 100000

/-! ## C string lemmas -/

theorem cstr_append_of_mem (p t : List Nat) (h : 0 ∈ p) : cstr (p ++ t) = cstr p := by
  induction p with
  | nil => simp at h
  | cons a p ih =>
    by_cases ha : a = 0
    · subst ha; simp [cstr]
    · have hp : 0 ∈ p := by
        rcases List.mem_cons.mp h with h0 | h0
        · exact absurd h0.symm ha
        · exact h0
      have := ih hp
      simp only [cstr] at this ⊢
      simp [List.takeWhile_cons, ha, this]

theorem cstr_append_zero (s t : List Nat) (h : 0 ∉ s) : cstr (s ++ 0 :: t) = s := by
  induction s with
  | nil => simp [cstr]
  | cons a s ih =>
    have ha : a ≠ 0 := fun e => h (by simp [e])
    have hs : 0 ∉ s := fun e => h (List.mem_cons_of_mem _ e)
    have := ih hs
    simp only [cstr] at this ⊢
    simp [List.takeWhile_cons, ha, this]

theorem cstr_of_not_mem (s : List Nat) (h : 0 ∉ s) : cstr s = s := by
  have := cstr_append_zero s [] h
  induction s with
  | nil => simp [cstr]
  | cons a s ih =>
    have ha : a ≠ 0 := fun e => h (by simp [e])
    have hs : 0 ∉ s := fun e => h (List.mem_cons_of_mem _ e)
    have h2 := ih hs (cstr_append_zero s [] hs)
    simp only [cstr] at h2 ⊢
    simp [List.takeWhile_cons, ha, h2]

theorem cstr_replicate_zero (n : Nat) (t : List Nat) :
    cstr (List.replicate (n + 1) 0 ++ t) = [] := by
  simp [cstr, List.replicate_succ]

theorem strlen_le_length (b : List Nat) : strlen b ≤ b.length := by
  unfold strlen cstr
  exact (List.takeWhile_sublist _).length_le

theorem occurs_append (n a b : List Nat) (h : occurs n a = true) : occurs n (a ++ b) = true := by
  induction a with
  | nil =>
    have hn : n = [] := by simpa [occurs] using h
    subst hn
    cases b <;> simp [occurs]
  | cons x a ih =>
    simp only [occurs, Bool.or_eq_true] at h
    simp only [List.cons_append, occurs, Bool.or_eq_true]
    rcases h with h | h
    · left
      rw [List.isPrefixOf_iff_prefix] at h ⊢
      exact h.trans (List.prefix_append (x :: a) b)
    · right; exact ih h

theorem occurs_cstr (n b : List Nat) (h : occurs n (cstr b) = true) : occurs n b = true := by
  have := occurs_append n (cstr b) (b.dropWhile (fun c => c != 0)) h
  simpa [cstr] using this

/-- The transfer buffer as `gpio_driver_write` sees it after a complete `copy_from_user`. -/
theorem write_buffer_eq (old buf : List Nat) :
    (copy_from_user (memset old 0 BUF_LEN) buf buf.length 0).2
      = buf ++ (memset old 0 BUF_LEN).drop buf.length := by
  simp [copy_from_user, not_copied]

theorem cstr_write_buffer (old buf : List Nat) (h : fits_buffer buf) :
    cstr (buf ++ (memset old 0 BUF_LEN).drop buf.length) = cstr buf := by
  by_cases h0 : 0 ∈ buf
  · exact cstr_append_of_mem _ _ h0
  · have hlt : buf.length < BUF_LEN := by
      rcases Nat.lt_or_ge buf.length BUF_LEN with h1 | h1
      · exact h1
      · exact absurd (h.2 (Nat.le_antisymm h.1 h1)) h0
    obtain ⟨k, hk⟩ : ∃ k, BUF_LEN - buf.length = k + 1 := ⟨BUF_LEN - buf.length - 1, by omega⟩
    have hd : (memset old 0 BUF_LEN).drop buf.length
        = 0 :: (List.replicate k 0 ++ old.drop BUF_LEN) := by
      unfold memset
      rw [List.drop_append_of_le_length (by simp; omega), List.drop_replicate, hk]
      simp [List.replicate_succ]
    rw [hd, cstr_append_zero _ _ h0, cstr_of_not_mem _ h0]

theorem write_no_match (d : Driver) (buf : List Nat) (hfit : fits_buffer buf)
    (h : occurs (cstr LED) buf = false ∨ buf.length < 5) :
    gpio_driver_write buf 0 d
      = (0, { d with gpio_driver_buffer :=
                buf ++ (memset d.gpio_driver_buffer 0 BUF_LEN).drop buf.length }) := by
  have hb := write_buffer_eq d.gpio_driver_buffer buf
  have hc := cstr_write_buffer d.gpio_driver_buffer buf hfit
  have hcond : (strstr (buf ++ (memset d.gpio_driver_buffer 0 BUF_LEN).drop buf.length) LED
      && decide (5 ≤ strlen (buf ++ (memset d.gpio_driver_buffer 0 BUF_LEN).drop buf.length)))
      = false := by
    rcases h with h | h
    · have : strstr (buf ++ (memset d.gpio_driver_buffer 0 BUF_LEN).drop buf.length) LED
          = false := by
        unfold strstr
        rw [hc]
        cases hh : occurs (cstr LED) (cstr buf)
        · rfl
        · rw [occurs_cstr _ _ hh] at h; exact absurd h (by simp)
      simp [this]
    · have : ¬ 5 ≤ strlen (buf ++ (memset d.gpio_driver_buffer 0 BUF_LEN).drop buf.length) := by
        unfold strlen
        rw [hc]
        have := strlen_le_length buf
        unfold strlen at this
        omega
      simp [this]
  unfold gpio_driver_write
  simp only [hb]
  have hr : (copy_from_user (memset d.gpio_driver_buffer 0 BUF_LEN) buf buf.length 0).1 = 0 := by
    simp [copy_from_user, not_copied]
  simp only [hr, hcond]
  simp

theorem write_led_command_eq (d : Driver) (n s : Nat) (rest : List Nat)
    (hn : 1 ≤ n ∧ n ≤ 4) (hfit : fits_buffer (led_command n s rest)) :
    (gpio_driver_write (led_command n s rest) 0 d).1 = ((led_command n s rest).length : Int) ∧
    (gpio_driver_write (led_command n s rest) 0 d).2.hw
      = iowrite32 (1 <<< led_pin n) (if s = 49 then GPSET0_OFFSET else GPCLR0_OFFSET) d.hw := by
  have hb := write_buffer_eq d.gpio_driver_buffer (led_command n s rest)
  have hc := cstr_write_buffer d.gpio_driver_buffer (led_command n s rest) hfit
  have hcs : cstr (led_command n s rest)
      = 76 :: 69 :: 68 :: (48 + n) :: 32 :: cstr (s :: rest) := by
    simp [cstr, led_command, List.takeWhile_cons]
  have hm : strstr (led_command n s rest
      ++ (memset d.gpio_driver_buffer 0 BUF_LEN).drop (led_command n s rest).length) LED
      = true := by
    unfold strstr
    rw [hc, hcs]
    simp [occurs, LED, cstr, List.takeWhile_cons]
  have hl : 5 ≤ strlen (led_command n s rest
      ++ (memset d.gpio_driver_buffer 0 BUF_LEN).drop (led_command n s rest).length) := by
    unfold strlen
    rw [hc, hcs]
    simp
  have hr : (copy_from_user (memset d.gpio_driver_buffer 0 BUF_LEN) (led_command n s rest)
      (led_command n s rest).length 0).1 = 0 := by
    simp [copy_from_user, not_copied]
  have h3 : (led_command n s rest
      ++ (memset d.gpio_driver_buffer 0 BUF_LEN).drop (led_command n s rest).length).getD 3 0
      = 48 + n := by
    simp [led_command]
  have h5 : (led_command n s rest
      ++ (memset d.gpio_driver_buffer 0 BUF_LEN).drop (led_command n s rest).length).getD 5 0
      = s := by
    simp [led_command]
  unfold gpio_driver_write
  simp only [hb, hr, hm, hl, h3, h5]
  obtain ⟨h1, h4⟩ := hn
  interval_cases n <;> by_cases hs : s = 49 <;>
    simp [hs, led_pin, SetGpioPin, ClearGpioPin, GPIO_06, GPIO_13, GPIO_19, GPIO_26]

/-! ## Lemmas on `gpio_driver_read` and the handler -/

theorem zero_not_mem_cstr (b : List Nat) : 0 ∉ cstr b := by
  intro h
  have := List.mem_takeWhile_imp h
  simp at this

theorem cstr_strcpy (dst src : List Nat) : cstr (strcpy dst src) = cstr src := by
  unfold strcpy
  exact cstr_append_zero _ _ (zero_not_mem_cstr src)

theorem cstr_memset_zero (b : List Nat) : cstr (memset b 0 BUF_LEN) = [] := by
  unfold memset
  exact cstr_replicate_zero 79 _

theorem take_strcpy (dst src : List Nat) :
    (strcpy dst src).take (strlen (strcpy dst src)) = cstr src := by
  unfold strlen
  rw [cstr_strcpy]
  unfold strcpy
  simp

theorem read_ret_out (d : Driver) (len uncopied : Nat)
    (hu : not_copied uncopied (strlen d.gpio_sequnce_buffer) = 0) :
    (gpio_driver_read len 0 uncopied d).ret = (strlen d.gpio_sequnce_buffer : Int) ∧
    (gpio_driver_read len 0 uncopied d).out = cstr d.gpio_sequnce_buffer := by
  have hl : strlen (strcpy (memset d.gpio_driver_buffer 0 BUF_LEN) d.gpio_sequnce_buffer)
      = strlen d.gpio_sequnce_buffer := by
    unfold strlen; rw [cstr_strcpy]
  have ht := take_strcpy (memset d.gpio_driver_buffer 0 BUF_LEN) d.gpio_sequnce_buffer
  rw [hl] at ht
  simp [gpio_driver_read, copy_to_user, hl, hu, ht]

theorem read_state (d : Driver) (len uncopied : Nat) (f_pos : Int) :
    (gpio_driver_read len f_pos uncopied d).d
      = { d with
          gpio_driver_buffer :=
            strcpy (memset d.gpio_driver_buffer 0 BUF_LEN) d.gpio_sequnce_buffer,
          gpio_sequnce_buffer := memset d.gpio_sequnce_buffer 0 BUF_LEN } := by
  unfold gpio_driver_read
  simp only [copy_to_user]
  split
  · split <;> rfl
  · rfl

theorem cstr_strcat_symbol (b : List Nat) (c : Nat) (hc : c ≠ 0) :
    cstr (strcat b [c, 0]) = cstr b ++ [c] := by
  have h1 : cstr [c, 0] = [c] := by simp [cstr, List.takeWhile_cons, hc]
  unfold strcat
  rw [h1, ← List.append_assoc]
  apply cstr_append_zero
  intro h
  rcases List.mem_append.mp h with h | h
  · exact zero_not_mem_cstr b h
  · simp at h; exact hc h.symm

theorem symbol_of_ne_zero (id : Nat) : symbol_of id ≠ 0 := by
  unfold symbol_of
  split_ifs <;> decide

theorem handler_rejects (d : Driver) (jiffies id : Nat)
    (h : tick_diff jiffies d.old_jiffie < 20) :
    gpio_irq_handler_falling jiffies id d = d := by
  unfold tick_diff at h
  simp [gpio_irq_handler_falling, h]

theorem handler_accepts (d : Driver) (jiffies id : Nat)
    (h : 20 ≤ tick_diff jiffies d.old_jiffie) :
    gpio_irq_handler_falling jiffies id d
      = { d with
          old_jiffie := jiffies,
          gpio_sequnce_buffer := strcat d.gpio_sequnce_buffer [symbol_of id, 0],
          hw := ClearGpioPin (id % 256) (mdelay 100 (SetGpioPin (id % 256) d.hw)) } := by
  unfold tick_diff at h
  have h2 : ¬ (jiffies + 2 ^ ULONG_BITS - d.old_jiffie) % 2 ^ ULONG_BITS < 20 := by omega
  unfold gpio_irq_handler_falling symbol_of
  simp only [h2, if_false]
  split_ifs <;> rfl

theorem write_fault_frame (d : Driver) (buf : List Nat) (uncopied : Nat)
    (_hlen : buf.length ≤ BUF_LEN)
    (h : (gpio_driver_write buf uncopied d).1 = -EFAULT) :
    (gpio_driver_write buf uncopied d).2.gpio_sequnce_buffer = d.gpio_sequnce_buffer ∧
    (gpio_driver_write buf uncopied d).2.hw = d.hw := by
  unfold gpio_driver_write at h ⊢
  simp only [copy_from_user] at h ⊢
  split_ifs at h ⊢
  all_goals first
    | exact ⟨rfl, rfl⟩
    | (exfalso; dsimp only [EFAULT] at h; omega)

theorem length_strcat_symbol (b : List Nat) (c : Nat) (hc : c ≠ 0)
    (h : strlen b + 2 ≤ b.length) : (strcat b [c, 0]).length = b.length := by
  have h1 : cstr [c, 0] = [c] := by simp [cstr, List.takeWhile_cons, hc]
  have h2 : strlen [c, 0] = 1 := by unfold strlen; rw [h1]; rfl
  unfold strcat
  rw [h1, h2]
  have h3 : (cstr b).length = strlen b := rfl
  simp only [List.length_append, List.length_cons, List.length_nil, List.length_drop, h3]
  omega

theorem handle_edges_inv (es : List (Nat × Nat)) :
    ∀ d : Driver, spaced d.old_jiffie es = true →
      d.gpio_sequnce_buffer.length = BUF_LEN →
      strlen d.gpio_sequnce_buffer + es.length ≤ 79 →
      cstr (handle_edges d es).gpio_sequnce_buffer
        = cstr d.gpio_sequnce_buffer ++ es.map (fun e => symbol_of e.2) ∧
      (handle_edges d es).gpio_sequnce_buffer.length = BUF_LEN := by
  induction es with
  | nil => intro d _ hlen _; simp [handle_edges, hlen]
  | cons e es ih =>
    intro d hsp hlen hcap
    simp only [spaced, Bool.and_eq_true, decide_eq_true_eq] at hsp
    have hacc := handler_accepts d e.1 e.2 hsp.1
    have hq : cstr (gpio_irq_handler_falling e.1 e.2 d).gpio_sequnce_buffer
        = cstr d.gpio_sequnce_buffer ++ [symbol_of e.2] := by
      rw [hacc]; exact cstr_strcat_symbol _ _ (symbol_of_ne_zero e.2)
    have hl : (gpio_irq_handler_falling e.1 e.2 d).gpio_sequnce_buffer.length = BUF_LEN := by
      rw [hacc]
      show (strcat d.gpio_sequnce_buffer [symbol_of e.2, 0]).length = BUF_LEN
      rw [length_strcat_symbol _ _ (symbol_of_ne_zero e.2) (by
        rw [hlen]; simp only [List.length_cons, BUF_LEN] at hcap ⊢; omega)]
      exact hlen
    have hold : (gpio_irq_handler_falling e.1 e.2 d).old_jiffie = e.1 := by rw [hacc]
    have hs : strlen (gpio_irq_handler_falling e.1 e.2 d).gpio_sequnce_buffer
        = strlen d.gpio_sequnce_buffer + 1 := by
      unfold strlen; rw [hq]; simp
    obtain ⟨ih1, ih2⟩ := ih (gpio_irq_handler_falling e.1 e.2 d) (by rw [hold]; exact hsp.2) hl
      (by rw [hs]; simp only [List.length_cons] at hcap; omega)
    refine ⟨?_, ?_⟩
    · show cstr (handle_edges (gpio_irq_handler_falling e.1 e.2 d) es).gpio_sequnce_buffer = _
      rw [ih1, hq]; simp
    · exact ih2

theorem strlen_after_read (d : Driver) (len uncopied : Nat) (f_pos : Int) :
    strlen (gpio_driver_read len f_pos uncopied d).d.gpio_sequnce_buffer = 0 := by
  rw [read_state]
  show strlen (memset d.gpio_sequnce_buffer 0 BUF_LEN) = 0
  unfold strlen
  rw [cstr_memset_zero]
  rfl

/-! ## Lemmas on the function-select registers -/

theorem GetGPFSELReg_eq (p : Nat) (hp : p ≤ 53) : GetGPFSELReg p = 4 * (p / 10) := by
  unfold GetGPFSELReg GPFSEL0_OFFSET GPFSEL1_OFFSET GPFSEL2_OFFSET GPFSEL3_OFFSET
    GPFSEL4_OFFSET GPFSEL5_OFFSET
  split_ifs <;> omega

theorem GetGPIOPinOffset_eq (p : Nat) (hp : p ≤ 53) : GetGPIOPinOffset p = p % 10 := by
  unfold GetGPIOPinOffset
  split_ifs <;> omega

theorem testBit_mod_u32 (x i : Nat) :
    (x % 4294967296).testBit i = (decide (i < 32) && x.testBit i) :=
  Nat.testBit_mod_two_pow x 32 i

theorem testBit_not32 (x i : Nat) :
    (not32 x).testBit i = (decide (i < 32) && !(x % 4294967296).testBit i) := by
  have hx : x % 2 ^ 32 < 2 ^ 32 := Nat.mod_lt _ (by norm_num)
  have h : not32 x = 2 ^ 32 - (x % 2 ^ 32 + 1) := by unfold not32; omega
  rw [h, Nat.testBit_two_pow_sub_succ hx]
  rfl

theorem SetGpioPinDirection_regs (hw : Gpio) (p : Nat) (dir : DIRECTION) (hp : p ≤ 53) :
    (SetGpioPinDirection p dir hw).regs
      = Function.update hw.regs (4 * (p / 10))
          ((if dir.code ≠ 0 then hw.regs (4 * (p / 10)) ||| (1 <<< (p % 10 * 3)) % 2 ^ 32
            else hw.regs (4 * (p / 10)) &&& not32 (1 <<< (p % 10 * 3))) % 2 ^ 32) := by
  unfold SetGpioPinDirection
  simp only [GetGPFSELReg_eq p hp, GetGPIOPinOffset_eq p hp, ioread32, iowrite32]

theorem SetGpioPinDirection_ops (hw : Gpio) (p : Nat) (dir : DIRECTION) (hp : p ≤ 53) :
    (SetGpioPinDirection p dir hw).ops
      = hw.ops ++ [HwEvent.read (4 * (p / 10)),
          HwEvent.write (4 * (p / 10)) ((SetGpioPinDirection p dir hw).regs (4 * (p / 10)))] := by
  rw [SetGpioPinDirection_regs hw p dir hp]
  unfold SetGpioPinDirection
  simp only [GetGPFSELReg_eq p hp, GetGPIOPinOffset_eq p hp, ioread32, iowrite32]
  simp

theorem SetGpioPinDirection_lt (hw : Gpio) (p : Nat) (dir : DIRECTION) (hp : p ≤ 53) :
    (SetGpioPinDirection p dir hw).regs (4 * (p / 10)) < 2 ^ 32 := by
  rw [SetGpioPinDirection_regs hw p dir hp]
  simp only [Function.update_same]
  exact Nat.mod_lt _ (by norm_num)

theorem SetGpioPinDirection_frame (hw : Gpio) (p : Nat) (dir : DIRECTION) (hp : p ≤ 53)
    (hv : hw.regs (4 * (p / 10)) < 2 ^ 32) :
    same_outside_field p hw (SetGpioPinDirection p dir hw) := by
  have hk : p % 10 * 3 < 32 := by omega
  have hv2 : ∀ i, 32 ≤ i → (hw.regs (4 * (p / 10))).testBit i = false := fun i hi =>
    Nat.testBit_lt_two_pow (lt_of_lt_of_le hv (Nat.pow_le_pow_right (by norm_num) hi))
  refine ⟨fun i hi => ?_, fun off hoff => ?_⟩
  · rw [SetGpioPinDirection_regs hw p dir hp]
    simp only [Function.update_same]
    have hne : p % 10 * 3 ≠ i := by omega
    by_cases h32 : i < 32
    · cases dir <;>
        simp [DIRECTION.code, testBit_mod_u32, testBit_not32, Nat.one_shiftLeft,
          Nat.testBit_two_pow, hne, h32]
    · rw [hv2 i (by omega)]
      simp [testBit_mod_u32, h32]
  · rw [SetGpioPinDirection_regs hw p dir hp]
    simp [Function.update, hoff]

theorem same_outside_field_trans (p : Nat) (a b c : Gpio)
    (h1 : same_outside_field p a b) (h2 : same_outside_field p b c) :
    same_outside_field p a c :=
  ⟨fun i hi => (h2.1 i hi).trans (h1.1 i hi), fun off ho => (h2.2 off ho).trans (h1.2 off ho)⟩

/-! ## Lemmas on the set, clear and pull registers -/

theorem one_shiftLeft_mod_u32 (k : Nat) (hk : k < 32) : (1 <<< k) % 2 ^ 32 = 1 <<< k := by
  rw [Nat.one_shiftLeft]
  exact Nat.mod_eq_of_lt (Nat.pow_lt_pow_right (by norm_num) hk)

theorem SetGpioPin_eq (hw : Gpio) (p : Nat) (hp : p ≤ 53) :
    SetGpioPin p hw
      = { regs := Function.update hw.regs (if p < 32 then 0x1C else 0x20) (1 <<< (p % 32)),
          ops := hw.ops ++ [HwEvent.write (if p < 32 then 0x1C else 0x20) (1 <<< (p % 32))] } := by
  unfold SetGpioPin iowrite32 GPSET0_OFFSET GPSET1_OFFSET
  by_cases h : p < 32
  · have hm : p % 32 = p := Nat.mod_eq_of_lt h
    simp only [h, if_true, hm, one_shiftLeft_mod_u32 p h]
  · have hm : p - 32 = p % 32 := by omega
    have hk : p % 32 < 32 := Nat.mod_lt _ (by norm_num)
    simp only [h, if_false, hm, one_shiftLeft_mod_u32 _ hk]

theorem ClearGpioPin_eq (hw : Gpio) (p : Nat) (hp : p ≤ 53) :
    ClearGpioPin p hw
      = { regs := Function.update hw.regs (if p < 32 then 0x28 else 0x2C) (1 <<< (p % 32)),
          ops := hw.ops ++ [HwEvent.write (if p < 32 then 0x28 else 0x2C) (1 <<< (p % 32))] } := by
  unfold ClearGpioPin iowrite32 GPCLR0_OFFSET GPCLR1_OFFSET
  by_cases h : p < 32
  · have hm : p % 32 = p := Nat.mod_eq_of_lt h
    simp only [h, if_true, hm, one_shiftLeft_mod_u32 p h]
  · have hm : p - 32 = p % 32 := by omega
    have hk : p % 32 < 32 := Nat.mod_lt _ (by norm_num)
    simp only [h, if_false, hm, one_shiftLeft_mod_u32 _ hk]

theorem SetInternalPullUpDown_ops (hw : Gpio) (p : Nat) (m : PUD) :
    (SetInternalPullUpDown p m hw).ops
      = hw.ops ++
        [HwEvent.write 0x94 m.code,
         HwEvent.read (if p < 32 then 0x98 else 0x9C),
         HwEvent.write (if p < 32 then 0x98 else 0x9C)
           ((hw.regs (if p < 32 then 0x98 else 0x9C)
              ||| (1 <<< (if p < 32 then p else p - 32)) % 2 ^ 32) % 2 ^ 32),
         HwEvent.write 0x94 0,
         HwEvent.read (if p < 32 then 0x98 else 0x9C),
         HwEvent.write (if p < 32 then 0x98 else 0x9C)
           (((hw.regs (if p < 32 then 0x98 else 0x9C)
               ||| (1 <<< (if p < 32 then p else p - 32)) % 2 ^ 32) % 2 ^ 32
              &&& not32 ((1 <<< (if p < 32 then p else p - 32)) % 2 ^ 32)) % 2 ^ 32)] := by
  unfold SetInternalPullUpDown ioread32 iowrite32 GPPUD_OFFSET GPPUDCLK0_OFFSET GPPUDCLK1_OFFSET
  by_cases h : p < 32 <;> cases m <;> simp [h, PUD.code, Function.update]

/-! ## Write protocol -/

/-- C1, as stated, fails: the payload `"garbage"` fits the buffer, does not contain `"LED"`
and causes no register access, but `gpio_driver_write` returns 0 for it, not its byte
count 7. -/
theorem write_garbage_returns_zero :
    fits_buffer garbage ∧ occurs (cstr LED) garbage = false ∧
    (gpio_driver_write garbage 0 driver0).2.hw.ops = [] ∧
    (gpio_driver_write garbage 0 driver0).1 = 0 ∧
    (gpio_driver_write garbage 0 driver0).1 ≠ (garbage.length : Int) := by
  decide

/-- C1, amended: for every payload that fits the transfer buffer and does not match the
command shape (it does not contain the token `"LED"`, or it is shorter than 5 bytes), a
`gpio_driver_write` whose copy from the caller succeeds returns 0, performs no register
access (register contents and access log are unchanged) and leaves the pending-sequence
buffer alone. -/
theorem write_unrecognised_returns_zero (d : Driver) (buf : List Nat)
    (hfit : fits_buffer buf)
    (h : occurs (cstr LED) buf = false ∨ buf.length < 5) :
    (gpio_driver_write buf 0 d).1 = 0 ∧
    (gpio_driver_write buf 0 d).2.hw = d.hw ∧
    (gpio_driver_write buf 0 d).2.gpio_sequnce_buffer = d.gpio_sequnce_buffer := by
  rw [write_no_match d buf hfit h]
  exact ⟨rfl, rfl, rfl⟩

/-- The amended C1 at the payload `"garbage"`. -/
theorem write_unrecognised_returns_zero_witness :
    fits_buffer garbage ∧
    (occurs (cstr LED) garbage = false ∨ garbage.length < 5) ∧
    ((gpio_driver_write garbage 0 driver0).1 = 0 ∧
     (gpio_driver_write garbage 0 driver0).2.hw = driver0.hw ∧
     (gpio_driver_write garbage 0 driver0).2.gpio_sequnce_buffer
       = driver0.gpio_sequnce_buffer) :=
  ⟨by decide, by decide,
    write_unrecognised_returns_zero driver0 garbage (by decide) (by decide)⟩

/-- C2: for every `n` in 1..4 and every level byte `s`, a `gpio_driver_write` of a payload
that starts with `"LEDn s"` (digit `n` at index 3, `s` at index 5), fits the transfer buffer
and is copied successfully returns the byte count of the payload and adds exactly one entry
to the register access log: a write of the one-bit mask `1 << pin(n)`, with pin(1) = 6,
pin(2) = 13, pin(3) = 19, pin(4) = 26, to the set register `0x1C` when `s = '1'` and to the
clear register `0x28` for any other `s`. -/
theorem write_led_command (d : Driver) (n s : Nat) (rest : List Nat)
    (hn : 1 ≤ n ∧ n ≤ 4) (hfit : fits_buffer (led_command n s rest)) :
    (gpio_driver_write (led_command n s rest) 0 d).1 = ((led_command n s rest).length : Int) ∧
    (gpio_driver_write (led_command n s rest) 0 d).2.hw.ops
      = d.hw.ops ++ [HwEvent.write (if s = 49 then 0x1C else 0x28) (1 <<< led_pin n)] ∧
    (gpio_driver_write (led_command n s rest) 0 d).2.hw.regs
      = Function.update d.hw.regs (if s = 49 then 0x1C else 0x28) (1 <<< led_pin n) ∧
    (led_pin 1 = 6 ∧ led_pin 2 = 13 ∧ led_pin 3 = 19 ∧ led_pin 4 = 26) := by
  obtain ⟨hret, hhw⟩ := write_led_command_eq d n s rest hn hfit
  refine ⟨hret, ?_, ?_, by decide⟩
  · rw [hhw]
    obtain ⟨h1, h4⟩ := hn
    interval_cases n <;> by_cases hs : s = 49 <;>
      simp [iowrite32, led_pin, hs, GPSET0_OFFSET, GPCLR0_OFFSET, GPIO_06, GPIO_13, GPIO_19,
        GPIO_26]
  · rw [hhw]
    obtain ⟨h1, h4⟩ := hn
    interval_cases n <;> by_cases hs : s = 49 <;>
      simp [iowrite32, led_pin, hs, GPSET0_OFFSET, GPCLR0_OFFSET, GPIO_06, GPIO_13, GPIO_19,
        GPIO_26]

/-- C2 at the payload `"LED2 1"`: one write of `1 << 13` to the set register. -/
theorem write_led_command_witness :
    (1 ≤ 2 ∧ 2 ≤ 4) ∧ fits_buffer (led_command 2 49 []) ∧
    ((gpio_driver_write (led_command 2 49 []) 0 driver0).1
        = ((led_command 2 49 []).length : Int) ∧
     (gpio_driver_write (led_command 2 49 []) 0 driver0).2.hw.ops
        = driver0.hw.ops ++ [HwEvent.write (if 49 = 49 then 0x1C else 0x28) (1 <<< led_pin 2)] ∧
     (gpio_driver_write (led_command 2 49 []) 0 driver0).2.hw.regs
        = Function.update driver0.hw.regs (if 49 = 49 then 0x1C else 0x28) (1 <<< led_pin 2) ∧
     (led_pin 1 = 6 ∧ led_pin 2 = 13 ∧ led_pin 3 = 19 ∧ led_pin 4 = 26)) :=
  ⟨by decide, by decide, write_led_command driver0 2 49 [] (by decide) (by decide)⟩

/-! ## Read protocol -/

/-- C3: when the pending-sequence buffer (of `BUF_LEN = 80` bytes) holds the string `s` of
`N` symbols followed by its terminator (so `N ≤ 79`), a successful `gpio_driver_read` at offset 0
stores exactly the bytes of `s` to the caller, returns `N` and leaves the pending-sequence
buffer all zero; a read at offset 0 that follows immediately returns 0 and stores nothing,
whatever the caller's buffer. -/
theorem read_drains (d : Driver) (s rest : List Nat) (len len2 uncopied2 : Nat)
    (hs : 0 ∉ s)
    (hq : d.gpio_sequnce_buffer = s ++ 0 :: rest)
    (hlen : d.gpio_sequnce_buffer.length = BUF_LEN) :
    (gpio_driver_read len 0 0 d).out = s ∧
    (gpio_driver_read len 0 0 d).ret = (s.length : Int) ∧
    (gpio_driver_read len 0 0 d).d.gpio_sequnce_buffer = List.replicate BUF_LEN 0 ∧
    (gpio_driver_read len2 0 uncopied2 (gpio_driver_read len 0 0 d).d).ret = 0 ∧
    (gpio_driver_read len2 0 uncopied2 (gpio_driver_read len 0 0 d).d).out = [] := by
  have hc : cstr d.gpio_sequnce_buffer = s := by rw [hq]; exact cstr_append_zero s rest hs
  have hl : strlen d.gpio_sequnce_buffer = s.length := by unfold strlen; rw [hc]
  obtain ⟨hret, hout⟩ := read_ret_out d len 0 (by simp [not_copied])
  have hst : (gpio_driver_read len 0 0 d).d.gpio_sequnce_buffer = List.replicate BUF_LEN 0 := by
    rw [read_state]
    simp [memset, List.drop_of_length_le (le_of_eq hlen)]
  have hl2 : strlen (gpio_driver_read len 0 0 d).d.gpio_sequnce_buffer = 0 := by
    rw [hst]; simp [strlen, cstr, BUF_LEN, List.replicate_succ]
  obtain ⟨hret2, hout2⟩ := read_ret_out (gpio_driver_read len 0 0 d).d len2 uncopied2
    (by rw [hl2]; simp [not_copied])
  refine ⟨by rw [hout, hc], by rw [hret, hl], hst, ?_, ?_⟩
  · rw [hret2, hl2]; rfl
  · rw [hout2]
    have : (cstr (gpio_driver_read len 0 0 d).d.gpio_sequnce_buffer).length = 0 := hl2
    exact List.length_eq_zero.mp this

/-- C3 with one symbol pending. -/
theorem read_drains_witness :
    0 ∉ [49] ∧
    driver_pending.gpio_sequnce_buffer = [49] ++ 0 :: List.replicate 78 0 ∧
    driver_pending.gpio_sequnce_buffer.length = BUF_LEN ∧
    ((gpio_driver_read 80 0 0 driver_pending).out = [49] ∧
     (gpio_driver_read 80 0 0 driver_pending).ret = (([49] : List Nat).length : Int) ∧
     (gpio_driver_read 80 0 0 driver_pending).d.gpio_sequnce_buffer
       = List.replicate BUF_LEN 0 ∧
     (gpio_driver_read 80 0 7 (gpio_driver_read 80 0 0 driver_pending).d).ret = 0 ∧
     (gpio_driver_read 80 0 7 (gpio_driver_read 80 0 0 driver_pending).d).out = []) :=
  ⟨by decide, by decide, by decide,
    read_drains driver_pending [49] (List.replicate 78 0) 80 80 7
      (by decide) (by decide) (by decide)⟩

/-! ## Transfer faults -/

/-- C4, as stated, fails: with the symbol `'1'` pending, a `gpio_driver_read` at offset 0
whose copy to the caller fails returns `-EFAULT`, and the pending-sequence buffer is empty
afterwards. -/
theorem faulting_read_loses_pending :
    cstr driver_pending.gpio_sequnce_buffer = [49] ∧
    (gpio_driver_read 80 0 1 driver_pending).ret = -EFAULT ∧
    cstr (gpio_driver_read 80 0 1 driver_pending).d.gpio_sequnce_buffer = [] ∧
    (gpio_driver_read 80 0 1 driver_pending).d.gpio_sequnce_buffer
      ≠ driver_pending.gpio_sequnce_buffer := by
  decide

/-- C4, amended: for every driver state, a `gpio_driver_write` of a payload of at most
`BUF_LEN = 80` bytes (one that fits the transfer buffer) that returns `-EFAULT` leaves the
pending-sequence buffer and the register window (contents and access log) exactly as they
were, and a `gpio_driver_read` that returns `-EFAULT` leaves the register window exactly as
it was. -/
theorem transfer_fault_frame (d : Driver) (buf : List Nat) (len uncopied : Nat)
    (f_pos : Int) :
    (buf.length ≤ BUF_LEN → (gpio_driver_write buf uncopied d).1 = -EFAULT →
      (gpio_driver_write buf uncopied d).2.gpio_sequnce_buffer = d.gpio_sequnce_buffer ∧
      (gpio_driver_write buf uncopied d).2.hw = d.hw) ∧
    ((gpio_driver_read len f_pos uncopied d).ret = -EFAULT →
      (gpio_driver_read len f_pos uncopied d).d.hw = d.hw) := by
  refine ⟨write_fault_frame d buf uncopied, fun _ => ?_⟩
  rw [read_state]

/-- The amended C4 at a faulting write of the 7 bytes of `"garbage"` and a faulting read,
one symbol pending. -/
theorem transfer_fault_frame_witness :
    garbage.length ≤ BUF_LEN ∧
    (gpio_driver_write garbage 1 driver_pending).1 = -EFAULT ∧
    (gpio_driver_read 80 0 1 driver_pending).ret = -EFAULT ∧
    ((gpio_driver_write garbage 1 driver_pending).2.gpio_sequnce_buffer
        = driver_pending.gpio_sequnce_buffer ∧
      (gpio_driver_write garbage 1 driver_pending).2.hw = driver_pending.hw) ∧
    (gpio_driver_read 80 0 1 driver_pending).d.hw = driver_pending.hw :=
  ⟨by decide, by decide, by decide,
    (transfer_fault_frame driver_pending garbage 80 1 0).1 (by decide) (by decide),
    (transfer_fault_frame driver_pending garbage 80 1 0).2 (by decide)⟩

/-! ## Interrupt handler -/

/-- C5: let a first edge be accepted at tick `t1` and a second edge arrive `e` ticks later
(tick counter `(t1 + e) mod 2 ^ 32`), on any identifiers.  The first edge appends one symbol
and records `t1`.  If `e < 20` the second edge leaves the whole driver state as it was
(pending buffer, last accepted tick, registers and access log), so one symbol was appended;
if `e ≥ 20` the second edge is accepted as well, two symbols were appended and its tick is
recorded. -/
theorem debounce_pair (d : Driver) (t1 e id1 id2 : Nat)
    (ht1 : t1 < 2 ^ ULONG_BITS) (he : e < 2 ^ ULONG_BITS)
    (hacc : 20 ≤ tick_diff t1 d.old_jiffie) :
    cstr (gpio_irq_handler_falling t1 id1 d).gpio_sequnce_buffer
      = cstr d.gpio_sequnce_buffer ++ [symbol_of id1] ∧
    (gpio_irq_handler_falling t1 id1 d).old_jiffie = t1 ∧
    (e < 20 →
      gpio_irq_handler_falling ((t1 + e) % 2 ^ ULONG_BITS) id2
          (gpio_irq_handler_falling t1 id1 d)
        = gpio_irq_handler_falling t1 id1 d) ∧
    (20 ≤ e →
      cstr (gpio_irq_handler_falling ((t1 + e) % 2 ^ ULONG_BITS) id2
          (gpio_irq_handler_falling t1 id1 d)).gpio_sequnce_buffer
        = cstr d.gpio_sequnce_buffer ++ [symbol_of id1, symbol_of id2] ∧
      (gpio_irq_handler_falling ((t1 + e) % 2 ^ ULONG_BITS) id2
          (gpio_irq_handler_falling t1 id1 d)).old_jiffie = (t1 + e) % 2 ^ ULONG_BITS) := by
  have h1 := handler_accepts d t1 id1 hacc
  have hold : (gpio_irq_handler_falling t1 id1 d).old_jiffie = t1 := by rw [h1]
  have hq : cstr (gpio_irq_handler_falling t1 id1 d).gpio_sequnce_buffer
      = cstr d.gpio_sequnce_buffer ++ [symbol_of id1] := by
    rw [h1]; exact cstr_strcat_symbol _ _ (symbol_of_ne_zero id1)
  have hdiff : tick_diff ((t1 + e) % 2 ^ ULONG_BITS)
      (gpio_irq_handler_falling t1 id1 d).old_jiffie = e := by
    rw [hold]
    unfold tick_diff
    unfold ULONG_BITS at ht1 he ⊢
    norm_num at ht1 he ⊢
    omega
  refine ⟨hq, hold, fun hlt => ?_, fun hge => ?_⟩
  · exact handler_rejects _ _ _ (by rw [hdiff]; exact hlt)
  · have h2 := handler_accepts (gpio_irq_handler_falling t1 id1 d)
      ((t1 + e) % 2 ^ ULONG_BITS) id2 (by rw [hdiff]; exact hge)
    constructor
    · rw [h2]
      show cstr (strcat (gpio_irq_handler_falling t1 id1 d).gpio_sequnce_buffer
        [symbol_of id2, 0]) = _
      rw [cstr_strcat_symbol _ _ (symbol_of_ne_zero id2), hq]
      simp
    · rw [h2]

/-- C5 at a first edge at tick 100 on input 1, followed by an edge on input 2 after 5 ticks
(rejected) and after 25 ticks (accepted). -/
theorem debounce_pair_witness :
    (100 < 2 ^ ULONG_BITS ∧ 20 ≤ tick_diff 100 driver0.old_jiffie) ∧
    (gpio_irq_handler_falling ((100 + 5) % 2 ^ ULONG_BITS) GPIO_13
          (gpio_irq_handler_falling 100 GPIO_06 driver0)
        = gpio_irq_handler_falling 100 GPIO_06 driver0) ∧
    (cstr (gpio_irq_handler_falling ((100 + 25) % 2 ^ ULONG_BITS) GPIO_13
          (gpio_irq_handler_falling 100 GPIO_06 driver0)).gpio_sequnce_buffer
        = cstr driver0.gpio_sequnce_buffer ++ [symbol_of GPIO_06, symbol_of GPIO_13] ∧
      (gpio_irq_handler_falling ((100 + 25) % 2 ^ ULONG_BITS) GPIO_13
          (gpio_irq_handler_falling 100 GPIO_06 driver0)).old_jiffie
        = (100 + 25) % 2 ^ ULONG_BITS) :=
  ⟨⟨by decide, by decide⟩,
    (debounce_pair driver0 100 5 GPIO_06 GPIO_13 (by decide) (by decide) (by decide)).2.2.1
      (by decide),
    (debounce_pair driver0 100 25 GPIO_06 GPIO_13 (by decide) (by decide) (by decide)).2.2.2
      (by decide)⟩

/-- C6: when at most 79 edges, each at least 20 ticks after the previously accepted one, are
handled starting from an empty (all zero) pending-sequence buffer, a following successful
`gpio_driver_read` at offset 0 stores the symbols of those edges in arrival order and returns
their number, and no byte was stored outside the buffer; the symbol is `'1'`, `'2'`, `'3'`,
`'4'` for the identifiers 6, 13, 19, 26 and `'0'` for any other identifier. -/
theorem edges_then_read (d : Driver) (es : List (Nat × Nat)) (len : Nat)
    (hempty : d.gpio_sequnce_buffer = List.replicate BUF_LEN 0)
    (hn : es.length ≤ 79) (hsp : spaced d.old_jiffie es = true) :
    (gpio_driver_read len 0 0 (handle_edges d es)).out = es.map (fun e => symbol_of e.2) ∧
    (gpio_driver_read len 0 0 (handle_edges d es)).ret = (es.length : Int) ∧
    (handle_edges d es).gpio_sequnce_buffer.length = BUF_LEN ∧
    (symbol_of 6 = 49 ∧ symbol_of 13 = 50 ∧ symbol_of 19 = 51 ∧ symbol_of 26 = 52) ∧
    (∀ id, id ≠ 6 → id ≠ 13 → id ≠ 19 → id ≠ 26 → symbol_of id = 48) := by
  have h0 : cstr d.gpio_sequnce_buffer = [] := by
    rw [hempty]; exact cstr_replicate_zero 79 []
  have hl0 : strlen d.gpio_sequnce_buffer = 0 := by unfold strlen; rw [h0]; rfl
  obtain ⟨hc, hlen⟩ := handle_edges_inv es d hsp (by rw [hempty]; simp) (by rw [hl0]; omega)
  rw [h0, List.nil_append] at hc
  have hl : strlen (handle_edges d es).gpio_sequnce_buffer = es.length := by
    unfold strlen; rw [hc]; simp
  obtain ⟨hret, hout⟩ := read_ret_out (handle_edges d es) len 0 (by simp [not_copied])
  refine ⟨by rw [hout, hc], by rw [hret, hl], hlen, by decide, ?_⟩
  intro id h6 h13 h19 h26
  simp [symbol_of, GPIO_06, GPIO_13, GPIO_19, GPIO_26, h6, h13, h19, h26]

/-- C6 at edges on inputs 1, 3, 2, 4: the drained read is `"1324"`. -/
theorem edges_then_read_witness :
    driver0.gpio_sequnce_buffer = List.replicate BUF_LEN 0 ∧
    edges_1324.length ≤ 79 ∧ spaced driver0.old_jiffie edges_1324 = true ∧
    (gpio_driver_read 80 0 0 (handle_edges driver0 edges_1324)).out = [49, 51, 50, 52] ∧
    (gpio_driver_read 80 0 0 (handle_edges driver0 edges_1324)).ret = 4 :=
  ⟨by decide, by decide, by decide,
    (edges_then_read driver0 edges_1324 80 (by decide) (by decide) (by decide)).1,
    (edges_then_read driver0 edges_1324 80 (by decide) (by decide) (by decide)).2.1⟩

/-- C7 fails on the code: the handler appends with `strcat` and never compares the length
with `BUF_LEN`.  Eighty edges, 20 ticks apart and with no read in between, handled from an
empty pending-sequence buffer are all accepted and leave 80 symbols in it, one more than the
79 the buffer can hold, and the terminator is stored past the `BUF_LEN` bytes of the
allocation. -/
theorem eighty_edges_overflow :
    driver0.gpio_sequnce_buffer = List.replicate BUF_LEN 0 ∧
    strlen (run driver0 eighty_edges).gpio_sequnce_buffer = 80 ∧
    ¬ strlen (run driver0 eighty_edges).gpio_sequnce_buffer ≤ 79 ∧
    BUF_LEN < (run driver0 eighty_edges).gpio_sequnce_buffer.length := by
  decide

/-! ## Initialisation -/

/-- C8 fails on the code: whenever device registration succeeds and a later step of
`gpio_driver_init` (either allocation, the register mapping or one of the four
`request_irq` calls) fails, the releases performed before the error is returned are not the
resources acquired so far in reverse order of acquisition. -/
theorem init_rollback_not_exact (env : InitEnv)
    (hreg : 0 ≤ env.register_chrdev)
    (hfail : (gpio_driver_init env globals0).result ≠ 0) :
    ¬ rollback_exact (gpio_driver_init env globals0).log := by
  obtain ⟨reg, kd, ks, io, g2i, rq⟩ := env
  have hreg2 : ¬ reg < 0 := not_lt.mpr hreg
  cases kd with
  | none =>
    simp [gpio_driver_init, hreg2, rollback_exact, released, acquired, fail_no_mem_d,
      fail_no_mem_s, free_gpio_12, free_gpio_16, free_gpio_20, free_gpio_21, globals0]
  | some b =>
    cases ks with
    | none =>
      simp [gpio_driver_init, hreg2, rollback_exact, released, acquired, fail_no_mem_d,
        fail_no_mem_s, free_gpio_12, free_gpio_16, free_gpio_20, free_gpio_21, globals0]
    | some q =>
      cases io with
      | none =>
        simp [gpio_driver_init, hreg2, rollback_exact, released, acquired, fail_no_virt_mem,
          fail_no_mem_d, fail_no_mem_s, free_gpio_12, free_gpio_16, free_gpio_20, free_gpio_21,
          globals0]
      | some hw =>
        by_cases h12 : rq (g2i GPIO_12) GPIO_06 = 0
        · by_cases h16 : rq (g2i GPIO_16) GPIO_13 = 0
          · by_cases h20 : rq (g2i GPIO_20) GPIO_19 = 0
            · by_cases h21 : rq (g2i GPIO_21) GPIO_26 = 0
              · exfalso
                apply hfail
                simp [gpio_driver_init, hreg2, h12, h16, h20, h21]
              · simp [gpio_driver_init, hreg2, h12, h16, h20, h21, rollback_exact, released,
                  acquired, free_gpio_21, globals0]
            · simp [gpio_driver_init, hreg2, h12, h16, h20, rollback_exact, released,
                acquired, free_gpio_20, free_gpio_21, globals0]
          · simp [gpio_driver_init, hreg2, h12, h16, rollback_exact, released,
              acquired, free_gpio_16, free_gpio_20, free_gpio_21, globals0]
        · simp [gpio_driver_init, hreg2, h12, rollback_exact, released,
            acquired, free_gpio_12, free_gpio_16, free_gpio_20, free_gpio_21, globals0]

/-- C8 at a failing first `kmalloc`: the device registration is never undone and four
interrupt lines that were never requested are freed. -/
theorem init_rollback_not_exact_witness :
    0 ≤ env_no_driver_buffer.register_chrdev ∧
    (gpio_driver_init env_no_driver_buffer globals0).result = -ENOMEM ∧
    (gpio_driver_init env_no_driver_buffer globals0).log
      = [KEvent.acquire (Resource.chrdev 240),
         KEvent.release (Resource.irq 0 6), KEvent.release (Resource.irq 0 13),
         KEvent.release (Resource.irq 0 19), KEvent.release (Resource.irq 0 26)] ∧
    ¬ rollback_exact (gpio_driver_init env_no_driver_buffer globals0).log :=
  ⟨by decide, by decide, by decide,
    init_rollback_not_exact env_no_driver_buffer (by decide) (by decide)⟩

/-! ## Pin direction -/

/-- C9: for every pin `p` in 0..53 and every initial 32-bit value of its function-select
register, after `SetGpioPinDirection(p, OUT)`, after `SetGpioPinDirection(p, IN)` and after
the first followed by the second, every bit of that register outside the 3-bit field of `p`
equals its initial value and every other register holds its initial value; each call logs
one read and one write, both at the function-select register of `p`. -/
theorem direction_frame (hw : Gpio) (p : Nat) (hp : p ≤ 53)
    (hv : hw.regs (4 * (p / 10)) < 2 ^ 32) :
    same_outside_field p hw (SetGpioPinDirection p DIRECTION.GPIO_DIRECTION_OUT hw) ∧
    same_outside_field p hw (SetGpioPinDirection p DIRECTION.GPIO_DIRECTION_IN hw) ∧
    same_outside_field p hw
      (SetGpioPinDirection p DIRECTION.GPIO_DIRECTION_IN
        (SetGpioPinDirection p DIRECTION.GPIO_DIRECTION_OUT hw)) ∧
    (∀ (dir : DIRECTION) (hw1 : Gpio),
      (SetGpioPinDirection p dir hw1).ops
        = hw1.ops ++ [HwEvent.read (4 * (p / 10)),
            HwEvent.write (4 * (p / 10)) ((SetGpioPinDirection p dir hw1).regs (4 * (p / 10)))]) := by
  refine ⟨SetGpioPinDirection_frame hw p _ hp hv, SetGpioPinDirection_frame hw p _ hp hv, ?_,
    fun dir hw1 => SetGpioPinDirection_ops hw1 p dir hp⟩
  exact same_outside_field_trans p _ _ _ (SetGpioPinDirection_frame hw p _ hp hv)
    (SetGpioPinDirection_frame _ p _ hp (SetGpioPinDirection_lt hw p _ hp))

/-- C9 at pin 13 with every function-select bit initially set. -/
theorem direction_frame_witness :
    13 ≤ 53 ∧ hw_ones.regs (4 * (13 / 10)) < 2 ^ 32 ∧
    same_outside_field 13 hw_ones
      (SetGpioPinDirection 13 DIRECTION.GPIO_DIRECTION_IN
        (SetGpioPinDirection 13 DIRECTION.GPIO_DIRECTION_OUT hw_ones)) ∧
    (SetGpioPinDirection 13 DIRECTION.GPIO_DIRECTION_IN
        (SetGpioPinDirection 13 DIRECTION.GPIO_DIRECTION_OUT hw_ones)).regs 4 = 0xFFFFFDFF :=
  ⟨by decide, by decide,
    (direction_frame hw_ones 13 (by decide) (by decide)).2.2.1, by decide⟩

/-- C10 fails on the code: with pin 6 in alternate function 0 (field `100`),
`SetGpioPinDirection(6, OUT)` leaves the field at `101`, not `001`, and
`SetGpioPinDirection(6, IN)` leaves it at `100`, not `000`: only bit 0 of the field is
written. -/
theorem direction_leaves_alt_bits :
    fsel_field 6 (hw_alt0.regs (4 * (6 / 10))) = 4 ∧
    fsel_field 6
      ((SetGpioPinDirection 6 DIRECTION.GPIO_DIRECTION_OUT hw_alt0).regs (4 * (6 / 10))) = 5 ∧
    fsel_field 6
      ((SetGpioPinDirection 6 DIRECTION.GPIO_DIRECTION_IN hw_alt0).regs (4 * (6 / 10))) = 4 := by
  decide

/-! ## Read at a nonzero offset -/

/-- C14: for every driver state (every pending-sequence buffer content), a
`gpio_driver_read` whose starting offset is nonzero returns 0 and stores nothing to the
caller, yet leaves the pending-sequence buffer empty: a read at offset 0 that follows
returns 0 and stores nothing, so the symbols that were pending are lost. -/
theorem read_nonzero_offset_discards (d : Driver) (len len2 uncopied uncopied2 : Nat)
    (f_pos : Int) (hpos : f_pos ≠ 0) :
    (gpio_driver_read len f_pos uncopied d).ret = 0 ∧
    (gpio_driver_read len f_pos uncopied d).out = [] ∧
    cstr (gpio_driver_read len f_pos uncopied d).d.gpio_sequnce_buffer = [] ∧
    (gpio_driver_read len2 0 uncopied2 (gpio_driver_read len f_pos uncopied d).d).ret = 0 ∧
    (gpio_driver_read len2 0 uncopied2 (gpio_driver_read len f_pos uncopied d).d).out = [] := by
  have hl := strlen_after_read d len uncopied f_pos
  have hc : cstr (gpio_driver_read len f_pos uncopied d).d.gpio_sequnce_buffer = [] :=
    List.length_eq_zero.mp hl
  obtain ⟨hret2, hout2⟩ := read_ret_out (gpio_driver_read len f_pos uncopied d).d len2 uncopied2
    (by rw [hl]; simp [not_copied])
  refine ⟨?_, ?_, hc, ?_, ?_⟩
  · simp [gpio_driver_read, hpos]
  · simp [gpio_driver_read, hpos]
  · rw [hret2, hl]; rfl
  · rw [hout2, hc]

/-- C14 with the symbol `'1'` pending and a read at offset 1. -/
theorem read_nonzero_offset_discards_witness :
    (1 : Int) ≠ 0 ∧
    cstr driver_pending.gpio_sequnce_buffer = [49] ∧
    (gpio_driver_read 80 1 0 driver_pending).ret = 0 ∧
    (gpio_driver_read 80 1 0 driver_pending).out = [] ∧
    cstr (gpio_driver_read 80 1 0 driver_pending).d.gpio_sequnce_buffer = [] ∧
    (gpio_driver_read 80 0 0 (gpio_driver_read 80 1 0 driver_pending).d).ret = 0 ∧
    (gpio_driver_read 80 0 0 (gpio_driver_read 80 1 0 driver_pending).d).out = [] :=
  ⟨by decide, by decide, read_nonzero_offset_discards driver_pending 80 80 0 0 1 (by decide)⟩

/-! ## Pull configuration -/

/-- C11 fails on the code: for every pin `p` in 0..53 and every pull mode `m`,
`SetInternalPullUpDown(p, m)` performs exactly six register accesses, in this order: the
write of the code of `m` to the pull-select register `0x94`; a read of the pull-clock
register of the group of `p` (`0x98` for `p < 32`, else `0x9C`) and the write-back of the
value read with bit `p mod 32` ORed in; the write of 0 to `0x94`; a second read of the
pull-clock register and the write-back of that value with bit `p mod 32` cleared.  No delay
happens anywhere in the sequence: the set-up wait and the hold wait are missing. -/
theorem pull_sequence_no_delay (hw : Gpio) (p : Nat) (m : PUD) (hp : p ≤ 53) :
    (SetInternalPullUpDown p m hw).ops
      = hw.ops ++
        [HwEvent.write 0x94 m.code,
         HwEvent.read (if p < 32 then 0x98 else 0x9C),
         HwEvent.write (if p < 32 then 0x98 else 0x9C)
           ((hw.regs (if p < 32 then 0x98 else 0x9C) ||| 1 <<< (p % 32)) % 2 ^ 32),
         HwEvent.write 0x94 0,
         HwEvent.read (if p < 32 then 0x98 else 0x9C),
         HwEvent.write (if p < 32 then 0x98 else 0x9C)
           (((hw.regs (if p < 32 then 0x98 else 0x9C) ||| 1 <<< (p % 32)) % 2 ^ 32
              &&& not32 (1 <<< (p % 32))) % 2 ^ 32)] ∧
    ∀ ms, HwEvent.delay ms ∉ (SetInternalPullUpDown p m hw).ops.drop hw.ops.length := by
  have hk : (if p < 32 then p else p - 32) = p % 32 := by
    split_ifs with h
    · exact (Nat.mod_eq_of_lt h).symm
    · omega
  have hb : (1 <<< (p % 32)) % 2 ^ 32 = 1 <<< (p % 32) :=
    one_shiftLeft_mod_u32 _ (Nat.mod_lt _ (by norm_num))
  have hops := SetInternalPullUpDown_ops hw p m
  rw [hk, hb] at hops
  refine ⟨hops, fun ms => ?_⟩
  rw [hops, List.drop_left]
  simp

/-- C11 at `SetInternalPullUpDown(GPIO_12, PULL_UP)`, as called by `gpio_driver_init`, on a
zeroed register window: six accesses and no delay. -/
theorem pull_sequence_no_delay_witness :
    12 ≤ 53 ∧
    (SetInternalPullUpDown 12 PUD.PULL_UP hw0).ops
      = [HwEvent.write 0x94 2, HwEvent.read 0x98, HwEvent.write 0x98 4096,
         HwEvent.write 0x94 0, HwEvent.read 0x98, HwEvent.write 0x98 0] ∧
    ∀ ms, HwEvent.delay ms ∉ (SetInternalPullUpDown 12 PUD.PULL_UP hw0).ops.drop hw0.ops.length :=
  ⟨by decide, by decide, (pull_sequence_no_delay hw0 12 PUD.PULL_UP (by decide)).2⟩

/-! ## Buffers after initialisation -/

/-- C13 fails on the code: whenever `gpio_driver_init` succeeds, the pending-sequence buffer
is the memory returned by the second `kmalloc`, byte for byte as the allocator left it (the
transfer buffer is zeroed twice, the pending-sequence buffer never), so the first
successful `gpio_driver_read` at offset 0 stores the string found in that memory and returns
its length, which need not be 0. -/
theorem init_leaves_sequence_buffer (env : InitEnv) (q : List Nat) (len : Nat)
    (hq : env.kmalloc_sequnce = some q)
    (hok : (gpio_driver_init env globals0).result = 0) :
    ∃ d, (gpio_driver_init env globals0).g.driver = some d ∧
      d.gpio_sequnce_buffer = q ∧
      (gpio_driver_read len 0 0 d).ret = (strlen q : Int) ∧
      (gpio_driver_read len 0 0 d).out = cstr q := by
  obtain ⟨reg, kd, ks, io, g2i, rq⟩ := env
  simp only at hq
  subst hq
  by_cases hreg : reg < 0
  · exfalso
    simp only [gpio_driver_init, hreg, if_true] at hok
    omega
  · cases kd with
    | none => simp [gpio_driver_init, hreg, ENOMEM] at hok
    | some b =>
      cases io with
      | none => simp [gpio_driver_init, hreg, ENOMEM] at hok
      | some hw =>
        by_cases h12 : rq (g2i GPIO_12) GPIO_06 = 0
        · by_cases h16 : rq (g2i GPIO_16) GPIO_13 = 0
          · by_cases h20 : rq (g2i GPIO_20) GPIO_19 = 0
            · by_cases h21 : rq (g2i GPIO_21) GPIO_26 = 0
              · refine ⟨{ gpio_driver_buffer := memset (memset b 0 BUF_LEN) 0 BUF_LEN,
                          gpio_sequnce_buffer := q, old_jiffie := 0,
                          hw := init_pins hw }, ?_, rfl, ?_⟩
                · simp [gpio_driver_init, hreg, h12, h16, h20, h21, Globals.driver, globals0]
                · exact read_ret_out _ len 0 (by simp [not_copied])
              · simp [gpio_driver_init, hreg, h12, h16, h20, h21, EINTR] at hok
            · simp [gpio_driver_init, hreg, h12, h16, h20, EINTR] at hok
          · simp [gpio_driver_init, hreg, h12, h16, EINTR] at hok
        · simp [gpio_driver_init, hreg, h12, EINTR] at hok

/-- C13 at a second `kmalloc` that returns memory starting with `'7'`, NUL: the first read
after a successful `gpio_driver_init` returns 1 and stores `"7"`. -/
theorem init_leaves_sequence_buffer_witness :
    env_stale_memory.kmalloc_sequnce = some (55 :: List.replicate 79 0) ∧
    (gpio_driver_init env_stale_memory globals0).result = 0 ∧
    strlen (55 :: List.replicate 79 0) = 1 ∧ cstr (55 :: List.replicate 79 0) = [55] ∧
    ∃ d, (gpio_driver_init env_stale_memory globals0).g.driver = some d ∧
      d.gpio_sequnce_buffer = 55 :: List.replicate 79 0 ∧
      (gpio_driver_read 80 0 0 d).ret = (strlen (55 :: List.replicate 79 0) : Int) ∧
      (gpio_driver_read 80 0 0 d).out = cstr (55 :: List.replicate 79 0) :=
  ⟨by decide, by decide, by decide, by decide,
    init_leaves_sequence_buffer env_stale_memory (55 :: List.replicate 79 0) 80
      (by decide) (by decide)⟩

/-! ## Output level -/

/-- C12: for every pin `p` in 0..53, `SetGpioPin(p)` adds exactly one entry to the register
access log, a write of the one-bit mask `1 << (p mod 32)` to the set register of the group
of `p` (`0x1C` for `p < 32`, else `0x20`), and `ClearGpioPin(p)` adds exactly one entry, a
write of the same mask to the clear register (`0x28` for `p < 32`, else `0x2C`); neither
reads a register. -/
theorem set_clear_single_write (hw : Gpio) (p : Nat) (hp : p ≤ 53) :
    (SetGpioPin p hw).ops
      = hw.ops ++ [HwEvent.write (if p < 32 then 0x1C else 0x20) (1 <<< (p % 32))] ∧
    (ClearGpioPin p hw).ops
      = hw.ops ++ [HwEvent.write (if p < 32 then 0x28 else 0x2C) (1 <<< (p % 32))] := by
  rw [SetGpioPin_eq hw p hp, ClearGpioPin_eq hw p hp]
  exact ⟨rfl, rfl⟩

/-- C12 at pin 40, in the upper group: one write of `1 << 8` to `0x20`, respectively
`0x2C`. -/
theorem set_clear_single_write_witness :
    40 ≤ 53 ∧
    (SetGpioPin 40 hw0).ops = [HwEvent.write 0x20 256] ∧
    (ClearGpioPin 40 hw0).ops = [HwEvent.write 0x2C 256] :=
  ⟨by decide, (set_clear_single_write hw0 40 (by decide)).1,
    (set_clear_single_write hw0 40 (by decide)).2⟩

end GpioDriver
